import Mathlib

/-
Verification of the DOF-container framework declared in
src/chrono_parallel/physics/Ch3DOFContainer.h.

The repository ships the header with the base class's inline method bodies;
the subclass method bodies live in translation units that are not part of
this tree.  Definitions taken from the header are embedded directly; the
missing subclass bodies are modelled from the specification and say so in
their doc comments.  The scalar type `real` of the source is embedded as ℚ.
-/

abbrev real := ℚ

/-- Embedding of the source type real3 (three scalar components). -/
structure real3 where
  x : real
  y : real
  z : real
  deriving DecidableEq

/-- Embedding of the 3x3 matrix type Mat33 of the source, row major. -/
structure Mat33 where
  a11 : real
  a12 : real
  a13 : real
  a21 : real
  a22 : real
  a23 : real
  a31 : real
  a32 : real
  a33 : real
  deriving DecidableEq

/-- Determinant of a Mat33, cofactor expansion along the first row. -/
def Mat33.det (A : Mat33) : real :=
  A.a11 * (A.a22 * A.a33 - A.a23 * A.a32)
    - A.a12 * (A.a21 * A.a33 - A.a23 * A.a31)
    + A.a13 * (A.a21 * A.a32 - A.a22 * A.a31)

/-- Inverse of a Mat33 via the adjugate divided by the determinant. -/
def Mat33.inv (A : Mat33) : Mat33 :=
  let d := A.det
  ⟨(A.a22 * A.a33 - A.a23 * A.a32) / d,
   (A.a13 * A.a32 - A.a12 * A.a33) / d,
   (A.a12 * A.a23 - A.a13 * A.a22) / d,
   (A.a23 * A.a31 - A.a21 * A.a33) / d,
   (A.a11 * A.a33 - A.a13 * A.a31) / d,
   (A.a13 * A.a21 - A.a11 * A.a23) / d,
   (A.a21 * A.a32 - A.a22 * A.a31) / d,
   (A.a12 * A.a31 - A.a11 * A.a32) / d,
   (A.a11 * A.a22 - A.a12 * A.a21) / d⟩

/-- State of the base class Ch3DOFContainer: the public data members of the
header (lines 93-107) plus the protected counters (lines 112-121).
`real` members become ℚ, `uint` members become Nat, `short2 family`
becomes a pair of Int. -/
structure Ch3DOFContainer where
  kernel_radius : real
  collision_envelope : real
  contact_recovery_speed : real
  contact_cohesion : real
  contact_mu : real
  max_velocity : real
  start_row : Nat
  max_iterations : Int
  contact_forces : List real
  gamma_old : List real
  family : Int × Int
  num_fluid_contacts : Nat
  num_fluid_bodies : Nat
  num_rigid_bodies : Nat
  num_rigid_fluid_contacts : Nat
  num_rigid_mpm_contacts : Nat
  num_unilaterals : Nat
  num_bilaterals : Nat
  num_shafts : Nat
  num_fea_tets : Nat
  num_fea_nodes : Nat
  deriving DecidableEq

/-- Base Update: the header declares the body as empty, so the state is
returned unchanged. -/
def Ch3DOFContainer.Update (c : Ch3DOFContainer) (_ChTime : real) : Ch3DOFContainer := c

/-- Base Initialize: empty body in the header, state unchanged. -/
def Ch3DOFContainer.Initialize (c : Ch3DOFContainer) : Ch3DOFContainer := c

/-- Base ComputeInvMass: empty body in the header, state unchanged. -/
def Ch3DOFContainer.ComputeInvMass (c : Ch3DOFContainer) (_offset : Int) : Ch3DOFContainer := c

/-- Base ComputeMass: empty body in the header, state unchanged. -/
def Ch3DOFContainer.ComputeMass (c : Ch3DOFContainer) (_offset : Int) : Ch3DOFContainer := c

/-- Base GenerateSparsity: empty body in the header, state unchanged. -/
def Ch3DOFContainer.GenerateSparsity (c : Ch3DOFContainer) : Ch3DOFContainer := c

/-- Base Build_D: empty body in the header, state unchanged. -/
def Ch3DOFContainer.Build_D (c : Ch3DOFContainer) : Ch3DOFContainer := c

/-- Base Build_b: empty body in the header, state unchanged. -/
def Ch3DOFContainer.Build_b (c : Ch3DOFContainer) : Ch3DOFContainer := c

/-- Base Build_E: empty body in the header, state unchanged. -/
def Ch3DOFContainer.Build_E (c : Ch3DOFContainer) : Ch3DOFContainer := c

/-- Base PreSolve: empty body in the header, state unchanged. -/
def Ch3DOFContainer.PreSolve (c : Ch3DOFContainer) : Ch3DOFContainer := c

/-- Base ComputeDOF: empty body in the header, state unchanged. -/
def Ch3DOFContainer.ComputeDOF (c : Ch3DOFContainer) : Ch3DOFContainer := c

/-- Base InnerSolve: empty body in the header, state unchanged. -/
def Ch3DOFContainer.InnerSolve (c : Ch3DOFContainer) : Ch3DOFContainer := c

/-- Base Project: empty body in the header, so neither the container state
nor the multiplier vector gamma is written. -/
def Ch3DOFContainer.Project (c : Ch3DOFContainer) (gamma : List real) :
    Ch3DOFContainer × List real := (c, gamma)

/-- Base UpdateRhs: empty body in the header, state unchanged. -/
def Ch3DOFContainer.UpdateRhs (c : Ch3DOFContainer) : Ch3DOFContainer := c

/-- Base UpdatePosition: empty body in the header, state unchanged. -/
def Ch3DOFContainer.UpdatePosition (c : Ch3DOFContainer) (_ChTime : real) : Ch3DOFContainer := c

/-- Base PostSolve: empty body in the header, state unchanged. -/
def Ch3DOFContainer.PostSolve (c : Ch3DOFContainer) : Ch3DOFContainer := c

/-- Base GetNumConstraints, header line 76: returns 0. -/
def Ch3DOFContainer.GetNumConstraints (_c : Ch3DOFContainer) : Int := 0

/-- Base GetNumNonZeros, header line 77: returns 0. -/
def Ch3DOFContainer.GetNumNonZeros (_c : Ch3DOFContainer) : Int := 0

/-- Base GetBodyContactForce, header line 79: declared to return real3 but the
body is empty, so no value is ever produced; embedded as Option with
result none for every body id. -/
def Ch3DOFContainer.GetBodyContactForce (_c : Ch3DOFContainer) (_body_id : Nat) :
    Option real3 := none

/-- Base GetBodyContactTorque, header line 80: same empty body, no value. -/
def Ch3DOFContainer.GetBodyContactTorque (_c : Ch3DOFContainer) (_body_id : Nat) :
    Option real3 := none

/-- A concrete base container used to exercise the configuration surface. -/
def baseContainer : Ch3DOFContainer :=
  { kernel_radius := 1
    collision_envelope := 0
    contact_recovery_speed := 1
    contact_cohesion := 0
    contact_mu := 0
    max_velocity := 1
    start_row := 0
    max_iterations := 10
    contact_forces := []
    gamma_old := []
    family := (0, 0)
    num_fluid_contacts := 0
    num_fluid_bodies := 0
    num_rigid_bodies := 0
    num_rigid_fluid_contacts := 0
    num_rigid_mpm_contacts := 0
    num_unilaterals := 0
    num_bilaterals := 0
    num_shafts := 0
    num_fea_tets := 0
    num_fea_nodes := 0 }

/-- A base container configured with a friction coefficient of 2, outside
[0,1].  Configuration in the source is plain assignment to the public data
member contact_mu (header line 97); embedded as a record update. -/
def invalidConfig : Ch3DOFContainer := { baseContainer with contact_mu := 2 }

/-- Claim C8: every lifecycle method of the base Ch3DOFContainer that a
subclass does not override is a no-op leaving the container state and the
gamma argument unchanged, and the default GetNumConstraints and
GetNumNonZeros both return 0. -/
theorem claim_C8_base_defaults_noop (c : Ch3DOFContainer) (t : real) (off : Int)
    (gamma : List real) :
    c.Update t = c ∧
    Ch3DOFContainer.Initialize c = c ∧
    c.ComputeInvMass off = c ∧
    c.ComputeMass off = c ∧
    c.GenerateSparsity = c ∧
    c.Build_D = c ∧
    c.Build_b = c ∧
    c.Build_E = c ∧
    c.PreSolve = c ∧
    c.ComputeDOF = c ∧
    c.InnerSolve = c ∧
    c.Project gamma = (c, gamma) ∧
    c.UpdateRhs = c ∧
    c.UpdatePosition t = c ∧
    c.PostSolve = c ∧
    c.GetNumConstraints = 0 ∧
    c.GetNumNonZeros = 0 :=
  ⟨rfl, rfl, rfl, rfl, rfl, rfl, rfl, rfl, rfl, rfl, rfl, rfl, rfl, rfl, rfl, rfl, rfl⟩

/-- Claim C9 counterexample: a configuration whose friction coefficient 2
lies outside [0,1] is not rejected before Initialize: the public field
stores the invalid value and the base Initialize runs (as the identity on
the state) with that invalid value in effect. -/
theorem claim_C9_counterexample :
    ¬ (0 ≤ invalidConfig.contact_mu ∧ invalidConfig.contact_mu ≤ 1) ∧
    Ch3DOFContainer.Initialize invalidConfig = invalidConfig ∧
    ( Ch3DOFContainer.Initialize invalidConfig).contact_mu = 2 :=
  ⟨by decide, rfl, rfl⟩

/-- Claim C9 (amended): no configuration-time validation exists.  The
friction coefficient and contact recovery speed are public data members
that store any assigned value, and the base Initialize runs unconditionally
with the stored values in effect. -/
theorem claim_C9_no_configuration_validation (c : Ch3DOFContainer) (v w : real) :
    ({ c with contact_mu := v, contact_recovery_speed := w }).contact_mu = v ∧
    ({ c with contact_mu := v, contact_recovery_speed := w }).contact_recovery_speed = w ∧
    Ch3DOFContainer.Initialize { c with contact_mu := v, contact_recovery_speed := w } =
      { c with contact_mu := v, contact_recovery_speed := w } :=
  ⟨rfl, rfl, rfl⟩

/-- Claim C10: the base-class GetBodyContactForce and GetBodyContactTorque
have empty bodies although declared to return real3, so they produce no
defined value for any body id; in the embedding both return none for every
container and every body id. -/
theorem claim_C10_contact_force_no_value (c : Ch3DOFContainer) (body_id : Nat) :
    c.GetBodyContactForce body_id = none ∧ c.GetBodyContactTorque body_id = none :=
  ⟨rfl, rfl⟩

/-- Modelled from the spec: the outer solver assigns each active container
its start_row by a sequential prefix sum over the containers'
GetNumConstraints values at Setup time (missing from src/: the bodies of
the Setup overrides live in translation units that are not in the tree).
The i-th container's start row is the sum of the constraint counts of the
containers before it. -/
def setupStartRow (counts : List Nat) (i : Nat) : Nat := (counts.take i).sum

/-- The half-open row range [start_row, start_row + GetNumConstraints())
owned by the i-th container after Setup, as a finite set of row indices. -/
def setupRowRange (counts : List Nat) (i : Nat) : Finset Nat :=
  Finset.Ico (setupStartRow counts i) (setupStartRow counts i + counts.getD i 0)

/-- Total row count of the assembled global system: the prefix sum taken
over all active containers. -/
def setupTotalRows (counts : List Nat) : Nat := setupStartRow counts counts.length

theorem setupStartRow_mono (counts : List Nat) :
    ∀ i j, i ≤ j → setupStartRow counts i ≤ setupStartRow counts j := by
  intro i j hij
  unfold setupStartRow
  induction counts generalizing i j with
  | nil => simp
  | cons a l ih =>
    cases i with
    | zero => simp
    | succ i =>
      cases j with
      | zero => omega
      | succ j =>
        simp only [List.take_succ_cons, List.sum_cons]
        exact Nat.add_le_add_left (ih i j (Nat.le_of_succ_le_succ hij)) a

theorem setupStartRow_succ (counts : List Nat) :
    ∀ i, i < counts.length →
      setupStartRow counts (i + 1) = setupStartRow counts i + counts.getD i 0 := by
  intro i hi
  unfold setupStartRow
  induction counts generalizing i with
  | nil => simp at hi
  | cons a l ih =>
    cases i with
    | zero => simp
    | succ i =>
      simp only [List.take_succ_cons, List.sum_cons, List.getD_cons_succ]
      rw [ih i (by simpa using hi)]
      omega

/-- Claim C1: after Setup assigns row offsets by the sequential prefix sum,
the row ranges of any two distinct containers are disjoint, and the total
row count of the assembled system equals the sum of every container's
GetNumConstraints. -/
theorem claim_C1_setup_row_ranges_disjoint (counts : List Nat) (i j : Nat)
    (hi : i < counts.length) (hj : j < counts.length) (hij : i ≠ j) :
    Disjoint (setupRowRange counts i) (setupRowRange counts j) ∧
    setupTotalRows counts = counts.sum := by
  constructor
  · have key : ∀ a b, a < b → b < counts.length →
        setupStartRow counts a + counts.getD a 0 ≤ setupStartRow counts b := by
      intro a b hab hb
      rw [← setupStartRow_succ counts a (lt_trans hab hb)]
      exact setupStartRow_mono counts (a + 1) b hab
    rcases lt_or_gt_of_ne hij with h | h
    · have hk := key i j h hj
      simp only [setupRowRange, Finset.disjoint_left, Finset.mem_Ico]
      intro x hx hx'
      omega
    · have hk := key j i h hi
      simp only [setupRowRange, Finset.disjoint_left, Finset.mem_Ico]
      intro x hx hx'
      omega
  · unfold setupTotalRows setupStartRow
    rw [List.take_length]

/-- Claim C1 witness: with three containers contributing 2, 3 and 4
constraint rows, containers 0 and 1 receive disjoint row ranges and the
total row count is the sum 9. -/
theorem claim_C1_witness :
    (0 : Nat) ≠ 1 ∧
    (Disjoint (setupRowRange [2, 3, 4] 0) (setupRowRange [2, 3, 4] 1) ∧
      setupTotalRows [2, 3, 4] = [2, 3, 4].sum) :=
  ⟨by decide, claim_C1_setup_row_ranges_disjoint [2, 3, 4] 0 1 (by decide) (by decide) (by decide)⟩

/-- Cone feasibility for one contact block: the multiplier (n, u, v) lies in
the Coulomb cone whose apex is shifted by the cohesion offset when the
shifted normal component is nonnegative and the squared tangential norm is
bounded by the square of mu times the shifted normal component. -/
def coneFeasible (mu coh n u v : real) : Prop :=
  0 ≤ n + coh ∧ u * u + v * v ≤ (mu * (n + coh)) * (mu * (n + coh))

/-- Modelled from the spec: the per-contact-block operation of
Ch3DOFRigidContainer::Project (missing from src/: the body lives in a
translation unit not in the tree).  The cohesion offset shifts the cone
apex (normal component n + coh); the block is then projected onto the
Coulomb cone of friction coefficient mu: kept when already inside the
cone, mapped to the apex when inside the polar cone, otherwise projected
onto the cone surface scaling the tangential part; finally the apex shift
is undone.  The tangential part is (u, v) and tLen is its Euclidean norm,
passed explicitly so the definition is executable over ℚ. -/
def Ch3DOFRigidContainer.ProjectContact (mu coh n u v tLen : real) :
    real × real × real :=
  if 0 ≤ n + coh ∧ tLen ≤ mu * (n + coh) then (n, u, v)
  else if mu * tLen ≤ -(n + coh) then (-coh, 0, 0)
  else
    ((n + coh + mu * tLen) / (1 + mu * mu) - coh,
     u * (mu * ((n + coh + mu * tLen) / (1 + mu * mu)) / tLen),
     v * (mu * ((n + coh + mu * tLen) / (1 + mu * mu)) / tLen))

/-- ChMPMContainer::Project, header line 190: the override is declared
inline with an empty body, so the multiplier vector gamma is not written. -/
def ChMPMContainer.Project (gamma : List real) : List real := gamma

/-- Claim C2 counterexample: the MPM container is a container implementing
the lifecycle protocol, yet its Project (an empty body in the header)
leaves the infeasible contact block (-1, 3, 4) unchanged and infeasible
for friction 1 and zero cohesion, so Project does not clamp for every
container. -/
theorem claim_C2_counterexample :
    ChMPMContainer.Project [-1, 3, 4] = [-1, 3, 4] ∧ ¬ coneFeasible 1 0 (-1) 3 4 :=
  ⟨rfl, by unfold coneFeasible; norm_num⟩

/-- Claim C2 (amended): for the containers that override Project with the
friction-cone operator (the rigid 3-DOF container), Project clamps the
tangential part of each contact block to the Coulomb cone of the
per-contact friction coefficient, handles the cohesion offset by shifting
the cone apex, and leaves the block feasible; the MPM container's Project
is an explicit no-op and performs no clamping. -/
theorem claim_C2_project_clamps_to_cone (mu coh n u v tLen : real) (g : List real)
    (hmu : 0 ≤ mu) (ht : 0 ≤ tLen) (hlen : tLen * tLen = u * u + v * v) :
    coneFeasible mu coh (Ch3DOFRigidContainer.ProjectContact mu coh n u v tLen).1
      (Ch3DOFRigidContainer.ProjectContact mu coh n u v tLen).2.1
      (Ch3DOFRigidContainer.ProjectContact mu coh n u v tLen).2.2 ∧
    ChMPMContainer.Project g = g := by
  refine ⟨?_, rfl⟩
  unfold Ch3DOFRigidContainer.ProjectContact coneFeasible
  split_ifs with h1 h2
  · refine ⟨h1.1, ?_⟩
    simp only
    calc u * u + v * v = tLen * tLen := hlen.symm
      _ ≤ (mu * (n + coh)) * (mu * (n + coh)) :=
          mul_le_mul h1.2 h1.2 ht (le_trans ht h1.2)
  · constructor
    · simp
    · simp
  · have hns : -(n + coh) < mu * tLen := not_le.mp h2
    have htpos : 0 < tLen := by
      rcases lt_or_eq_of_le ht with h | h
      · exact h
      · exfalso
        apply h1
        have hz : tLen = 0 := h.symm
        have hnpos : 0 < n + coh := by
          rw [hz] at hns
          simp at hns
          linarith
        exact ⟨le_of_lt hnpos, by rw [hz]; positivity⟩
    have hdpos : (0 : real) < 1 + mu * mu := by positivity
    have hnum : 0 < n + coh + mu * tLen := by linarith
    have hnp : 0 < (n + coh + mu * tLen) / (1 + mu * mu) := div_pos hnum hdpos
    constructor
    · simp only
      linarith
    · simp only
      have hne : tLen ≠ 0 := ne_of_gt htpos
      have hsimp : (n + coh + mu * tLen) / (1 + mu * mu) - coh + coh =
          (n + coh + mu * tLen) / (1 + mu * mu) := by ring
      rw [hsimp]
      set np := (n + coh + mu * tLen) / (1 + mu * mu) with hnpdef
      have hexp : u * (mu * np / tLen) * (u * (mu * np / tLen)) +
          v * (mu * np / tLen) * (v * (mu * np / tLen)) =
          (u * u + v * v) * ((mu * np) * (mu * np)) / (tLen * tLen) := by
        field_simp
        ring
      rw [hexp, ← hlen]
      rw [mul_div_assoc]
      have hcancel : tLen * tLen * (mu * np * (mu * np) / (tLen * tLen)) =
          mu * np * (mu * np) := by
        field_simp
      rw [hcancel]

/-- Claim C2 witness: projecting the infeasible block (n, u, v) = (-1, 3, 4)
with tangential norm 5, friction 1 and zero cohesion yields a feasible
block, while the MPM Project leaves the vector [5] unchanged. -/
theorem claim_C2_witness :
    (0 : real) ≤ 1 ∧ (0 : real) ≤ 5 ∧ (5 : real) * 5 = 3 * 3 + 4 * 4 ∧
    (coneFeasible 1 0 (Ch3DOFRigidContainer.ProjectContact 1 0 (-1) 3 4 5).1
      (Ch3DOFRigidContainer.ProjectContact 1 0 (-1) 3 4 5).2.1
      (Ch3DOFRigidContainer.ProjectContact 1 0 (-1) 3 4 5).2.2 ∧
    ChMPMContainer.Project [5] = [5]) :=
  ⟨by norm_num, by norm_num, by norm_num,
    claim_C2_project_clamps_to_cone 1 0 (-1) 3 4 5 [5]
      (by norm_num) (by norm_num) (by norm_num)⟩

/-- Modelled from the spec: ChFluidContainer::Project (header line 141; the
body lives in a translation unit that is not in the tree) is a no-op for
plain fluid — the pressure constraint is bilateral, not coned — so the
multiplier vector gamma is returned unchanged. -/
def ChFluidContainer.Project (gamma : List real) : List real := gamma

/-- Modelled from the spec: ChFluidContainer::ComputeMass (missing from
src/: the body lives in a translation unit that is not in the tree) fills
the diagonal mass blocks of the n fluid nodes at the given global offset
with the container's mass, leaving every other diagonal entry as it was.
The global diagonal is embedded as a function from row index to value. -/
def ChFluidContainer.ComputeMass (mass : real) (n offset : Nat) (diag : Nat → real) :
    Nat → real :=
  fun j => if offset ≤ j ∧ j < offset + n then mass else diag j

/-- Modelled from the spec: ChFluidContainer::ComputeInvMass (missing from
src/) fills the diagonal inverse-mass blocks of the n fluid nodes at the
given global offset with one over the container's mass. -/
def ChFluidContainer.ComputeInvMass (mass : real) (n offset : Nat) (diag : Nat → real) :
    Nat → real :=
  fun j => if offset ≤ j ∧ j < offset + n then 1 / mass else diag j

/-- Claim C4: for every node with positive mass, the diagonal block written
by ComputeMass at a global offset and the block written by ComputeInvMass
at the same offset are reciprocal: their product equals 1. -/
theorem claim_C4_mass_invmass_reciprocal (mass : real) (n offset j : Nat)
    (diagM diagI : Nat → real) (hmass : 0 < mass)
    (hlo : offset ≤ j) (hhi : j < offset + n) :
    ChFluidContainer.ComputeMass mass n offset diagM j *
      ChFluidContainer.ComputeInvMass mass n offset diagI j = 1 := by
  unfold ChFluidContainer.ComputeMass ChFluidContainer.ComputeInvMass
  rw [if_pos ⟨hlo, hhi⟩, if_pos ⟨hlo, hhi⟩]
  field_simp

/-- Claim C4 witness: with node mass 2, one node at offset 0, the mass and
inverse-mass diagonal entries at row 0 multiply to 1. -/
theorem claim_C4_witness :
    (0 : real) < 2 ∧ (0 : Nat) ≤ 0 ∧ (0 : Nat) < 0 + 1 ∧
    ChFluidContainer.ComputeMass 2 1 0 (fun _ => 0) 0 *
      ChFluidContainer.ComputeInvMass 2 1 0 (fun _ => 0) 0 = 1 :=
  ⟨by norm_num, by decide, by decide,
    claim_C4_mass_invmass_reciprocal 2 1 0 0 (fun _ => 0) (fun _ => 0)
      (by norm_num) (by decide) (by decide)⟩

/-- Modelled from the spec: ChFLIPContainer::Project (missing from src/:
the body lives in a translation unit that is not in the tree) always
applies a non-trivial bound tied to the container's own friction (mu) and
hardening_coefficient parameters; the spec fixes the data flow but not the
exact formula, so the bound is modelled as clamping every multiplier into
the interval [-(mu * hardening_coefficient), mu * hardening_coefficient]. -/
def ChFLIPContainer.Project (mu hardening_coefficient : real) (gamma : List real) :
    List real :=
  gamma.map (fun g =>
    max (-(mu * hardening_coefficient)) (min (mu * hardening_coefficient) g))

/-- Claim C3: Project is idempotent for every container.  A contact block
inside the friction cone is left unchanged by the modelled rigid-container
projection, so applying the projection twice equals applying it once; the
base-class Project (a no-op in the header), the fluid Project (a bilateral
no-op per the spec) and the MPM Project (an empty body in the header) are
idempotent on every gamma; and the FLIP clamp is idempotent whenever its
bound interval is well formed, in particular on every already-feasible
multiplier. -/
theorem claim_C3_project_idempotent (mu coh n u v tLen : real)
    (hfeas : 0 ≤ n + coh ∧ tLen ≤ mu * (n + coh))
    (muF hcF : real) (hF : 0 ≤ muF * hcF)
    (c : Ch3DOFContainer) (g gf gm gl : List real) :
    Ch3DOFRigidContainer.ProjectContact mu coh
        (Ch3DOFRigidContainer.ProjectContact mu coh n u v tLen).1
        (Ch3DOFRigidContainer.ProjectContact mu coh n u v tLen).2.1
        (Ch3DOFRigidContainer.ProjectContact mu coh n u v tLen).2.2 tLen =
      Ch3DOFRigidContainer.ProjectContact mu coh n u v tLen ∧
    ((c.Project g).1.Project (c.Project g).2) = c.Project g ∧
    ChFluidContainer.Project (ChFluidContainer.Project gf) =
      ChFluidContainer.Project gf ∧
    ChMPMContainer.Project (ChMPMContainer.Project gm) =
      ChMPMContainer.Project gm ∧
    ChFLIPContainer.Project muF hcF (ChFLIPContainer.Project muF hcF gl) =
      ChFLIPContainer.Project muF hcF gl := by
  have hfix : Ch3DOFRigidContainer.ProjectContact mu coh n u v tLen = (n, u, v) := by
    unfold Ch3DOFRigidContainer.ProjectContact
    rw [if_pos ⟨hfeas.1, hfeas.2⟩]
  refine ⟨?_, rfl, rfl, rfl, ?_⟩
  · rw [hfix]
    exact hfix
  · unfold ChFLIPContainer.Project
    rw [List.map_map]
    congr 1
    funext x
    simp only [Function.comp_apply]
    have hb : -(muF * hcF) ≤ muF * hcF := by linarith
    have h1 : max (-(muF * hcF)) (min (muF * hcF) x) ≤ muF * hcF :=
      max_le hb (min_le_left _ _)
    rw [min_eq_right h1, ← max_assoc, max_self]

/-- Claim C3 witness: the block (5, 3, 4) with tangential norm 5 is feasible
for friction 1 and zero cohesion; re-projecting the projection of that
block, of the base no-op, of the fluid no-op, of the MPM no-op and of the
FLIP clamp with bound 1 * 2 equals projecting each once. -/
theorem claim_C3_witness :
    ((0 : real) ≤ 5 + 0 ∧ (5 : real) ≤ 1 * (5 + 0)) ∧ (0 : real) ≤ 1 * 2 ∧
    (Ch3DOFRigidContainer.ProjectContact 1 0
        (Ch3DOFRigidContainer.ProjectContact 1 0 5 3 4 5).1
        (Ch3DOFRigidContainer.ProjectContact 1 0 5 3 4 5).2.1
        (Ch3DOFRigidContainer.ProjectContact 1 0 5 3 4 5).2.2 5 =
      Ch3DOFRigidContainer.ProjectContact 1 0 5 3 4 5 ∧
    ((baseContainer.Project [1, 2]).1.Project (baseContainer.Project [1, 2]).2) =
      baseContainer.Project [1, 2] ∧
    ChFluidContainer.Project (ChFluidContainer.Project [1, 2]) =
      ChFluidContainer.Project [1, 2] ∧
    ChMPMContainer.Project (ChMPMContainer.Project [1, 2]) =
      ChMPMContainer.Project [1, 2] ∧
    ChFLIPContainer.Project 1 2 (ChFLIPContainer.Project 1 2 [3, -7]) =
      ChFLIPContainer.Project 1 2 [3, -7]) :=
  ⟨⟨by norm_num, by norm_num⟩, by norm_num,
    claim_C3_project_idempotent 1 0 5 3 4 5 ⟨by norm_num, by norm_num⟩ 1 2 (by norm_num)
      baseContainer [1, 2] [1, 2] [1, 2] [3, -7]⟩

/-- Claim C7: the FLIP container's Project is non-trivial: a multiplier one
above the bound determined by mu and hardening_coefficient is changed by
the projection. -/
theorem claim_C7_flip_project_nontrivial (mu hc : real) (hmu : 0 ≤ mu) (hhc : 0 ≤ hc) :
    ChFLIPContainer.Project mu hc [mu * hc + 1] ≠ [mu * hc + 1] := by
  have hb : 0 ≤ mu * hc := mul_nonneg hmu hhc
  unfold ChFLIPContainer.Project
  simp only [List.map_cons, List.map_nil]
  rw [min_eq_left (by linarith), max_eq_right (by linarith)]
  intro h
  have := List.head_eq_of_cons_eq h
  linarith

/-- Claim C7 witness: with friction 1/2 and hardening coefficient 2 the
FLIP projection changes the multiplier vector [2]. -/
theorem claim_C7_witness :
    (0 : real) ≤ 1 / 2 ∧ (0 : real) ≤ 2 ∧
    ChFLIPContainer.Project (1 / 2) 2 [1 / 2 * 2 + 1] ≠ [1 / 2 * 2 + 1] :=
  ⟨by norm_num, by norm_num,
    claim_C7_flip_project_nontrivial (1 / 2) 2 (by norm_num) (by norm_num)⟩

/-- Left fold of min over a list with a starting value, the componentwise
building block of the marker-cloud bounding box. -/
def foldMin (a : real) (l : List real) : real := l.foldl min a

/-- Left fold of max over a list with a starting value. -/
def foldMax (a : real) (l : List real) : real := l.foldl max a

/-- Modelled from the spec: the minimum corner of the current marker
cloud's bounding box used by ChMPMContainer::ComputeDOF (missing from
src/: the body lives in a translation unit that is not in the tree). -/
def ChMPMContainer.min_bounding_point (ps : List real3) : real3 :=
  match ps with
  | [] => ⟨0, 0, 0⟩
  | p :: rest =>
    ⟨foldMin p.x (rest.map real3.x), foldMin p.y (rest.map real3.y),
     foldMin p.z (rest.map real3.z)⟩

/-- Modelled from the spec: the maximum corner of the current marker
cloud's bounding box. -/
def ChMPMContainer.max_bounding_point (ps : List real3) : real3 :=
  match ps with
  | [] => ⟨0, 0, 0⟩
  | p :: rest =>
    ⟨foldMax p.x (rest.map real3.x), foldMax p.y (rest.map real3.y),
     foldMax p.z (rest.map real3.z)⟩

/-- Modelled from the spec: the bins_per_axis layout derived from bin_edge:
the number of grid cells per axis covering the bounding box, one more than
the floor of the box extent divided by bin_edge. -/
def ChMPMContainer.bins_per_axis (ps : List real3) (bin_edge : real) : Int × Int × Int :=
  (⌊(( ChMPMContainer.max_bounding_point ps).x - ( ChMPMContainer.min_bounding_point ps).x) / bin_edge⌋ + 1,
   ⌊(( ChMPMContainer.max_bounding_point ps).y - ( ChMPMContainer.min_bounding_point ps).y) / bin_edge⌋ + 1,
   ⌊(( ChMPMContainer.max_bounding_point ps).z - ( ChMPMContainer.min_bounding_point ps).z) / bin_edge⌋ + 1)

/-- Modelled from the spec: ChMPMContainer::ComputeDOF computes the number
of active grid nodes num_mpm_nodes from the current marker cloud's bounding
box and the bins_per_axis layout derived from bin_edge. -/
def ChMPMContainer.ComputeDOF (ps : List real3) (bin_edge : real) : Nat :=
  (( ChMPMContainer.bins_per_axis ps bin_edge).1 *
   ( ChMPMContainer.bins_per_axis ps bin_edge).2.1 *
   ( ChMPMContainer.bins_per_axis ps bin_edge).2.2).toNat

/-- A marker's grid cell: the integer 3D coordinate obtained from
(position - min_bounding_point) / bin_edge, componentwise floor. -/
def gridCellIndex (p mn : real3) (bin_edge : real) : Int × Int × Int :=
  (⌊(p.x - mn.x) / bin_edge⌋, ⌊(p.y - mn.y) / bin_edge⌋, ⌊(p.z - mn.z) / bin_edge⌋)

theorem foldMin_le_init (l : List real) : ∀ a, foldMin a l ≤ a := by
  unfold foldMin
  induction l with
  | nil => intro a; simp
  | cons b l ih =>
    intro a
    simp only [List.foldl_cons]
    exact le_trans (ih (min a b)) (min_le_left a b)

theorem foldMin_le_mem (l : List real) : ∀ a b, b ∈ l → foldMin a l ≤ b := by
  unfold foldMin
  induction l with
  | nil => intro a b hb; simp at hb
  | cons c l ih =>
    intro a b hb
    simp only [List.foldl_cons]
    rcases List.mem_cons.mp hb with h | h
    · subst h
      exact le_trans (foldMin_le_init l (min a b)) (min_le_right a b)
    · exact ih (min a c) b h

theorem le_foldMax_init (l : List real) : ∀ a, a ≤ foldMax a l := by
  unfold foldMax
  induction l with
  | nil => intro a; simp
  | cons b l ih =>
    intro a
    simp only [List.foldl_cons]
    exact le_trans (le_max_left a b) (ih (max a b))

theorem mem_le_foldMax (l : List real) : ∀ a b, b ∈ l → b ≤ foldMax a l := by
  unfold foldMax
  induction l with
  | nil => intro a b hb; simp at hb
  | cons c l ih =>
    intro a b hb
    simp only [List.foldl_cons]
    rcases List.mem_cons.mp hb with h | h
    · subst h
      exact le_trans (le_max_right a b) (le_foldMax_init l (max a b))
    · exact ih (max a c) b h

theorem min_bounding_point_le (ps : List real3) (p : real3) (hp : p ∈ ps) :
    ( ChMPMContainer.min_bounding_point ps).x ≤ p.x ∧
    ( ChMPMContainer.min_bounding_point ps).y ≤ p.y ∧
    ( ChMPMContainer.min_bounding_point ps).z ≤ p.z := by
  cases ps with
  | nil => simp at hp
  | cons q rest =>
    unfold ChMPMContainer.min_bounding_point
    rcases List.mem_cons.mp hp with h | h
    · subst h
      exact ⟨foldMin_le_init _ _, foldMin_le_init _ _, foldMin_le_init _ _⟩
    · exact ⟨foldMin_le_mem _ _ _ (List.mem_map_of_mem real3.x h),
        foldMin_le_mem _ _ _ (List.mem_map_of_mem real3.y h),
        foldMin_le_mem _ _ _ (List.mem_map_of_mem real3.z h)⟩

theorem le_max_bounding_point (ps : List real3) (p : real3) (hp : p ∈ ps) :
    p.x ≤ ( ChMPMContainer.max_bounding_point ps).x ∧
    p.y ≤ ( ChMPMContainer.max_bounding_point ps).y ∧
    p.z ≤ ( ChMPMContainer.max_bounding_point ps).z := by
  cases ps with
  | nil => simp at hp
  | cons q rest =>
    unfold ChMPMContainer.max_bounding_point
    rcases List.mem_cons.mp hp with h | h
    · subst h
      exact ⟨le_foldMax_init _ _, le_foldMax_init _ _, le_foldMax_init _ _⟩
    · exact ⟨mem_le_foldMax _ _ _ (List.mem_map_of_mem real3.x h),
        mem_le_foldMax _ _ _ (List.mem_map_of_mem real3.y h),
        mem_le_foldMax _ _ _ (List.mem_map_of_mem real3.z h)⟩

theorem gridCell_component_bounds (lo hi c e : real) (he : 0 < e)
    (h1 : lo ≤ c) (h2 : c ≤ hi) :
    0 ≤ ⌊(c - lo) / e⌋ ∧ ⌊(c - lo) / e⌋ < ⌊(hi - lo) / e⌋ + 1 := by
  constructor
  · exact Int.floor_nonneg.mpr (div_nonneg (by linarith) (le_of_lt he))
  · have hmono : ⌊(c - lo) / e⌋ ≤ ⌊(hi - lo) / e⌋ :=
      Int.floor_le_floor ((div_le_div_iff_of_pos_right he).mpr (by linarith))
    omega

/-- Claim C5: a marker's grid cell is the integer 3D coordinate obtained
from (position - min_bounding_point) / bin_edge, and every marker's cell
lies inside the bins_per_axis layout that ComputeDOF derives from the
marker cloud's bounding box and bin_edge; the number of active grid nodes
computed by ComputeDOF is the product of the per-axis bin counts. -/
theorem claim_C5_grid_cell_and_compute_dof (ps : List real3) (bin_edge : real)
    (p : real3) (hp : p ∈ ps) (he : 0 < bin_edge) :
    (0 ≤ (gridCellIndex p ( ChMPMContainer.min_bounding_point ps) bin_edge).1 ∧
      (gridCellIndex p ( ChMPMContainer.min_bounding_point ps) bin_edge).1 <
        ( ChMPMContainer.bins_per_axis ps bin_edge).1) ∧
    (0 ≤ (gridCellIndex p ( ChMPMContainer.min_bounding_point ps) bin_edge).2.1 ∧
      (gridCellIndex p ( ChMPMContainer.min_bounding_point ps) bin_edge).2.1 <
        ( ChMPMContainer.bins_per_axis ps bin_edge).2.1) ∧
    (0 ≤ (gridCellIndex p ( ChMPMContainer.min_bounding_point ps) bin_edge).2.2 ∧
      (gridCellIndex p ( ChMPMContainer.min_bounding_point ps) bin_edge).2.2 <
        ( ChMPMContainer.bins_per_axis ps bin_edge).2.2) ∧
    ChMPMContainer.ComputeDOF ps bin_edge =
      (( ChMPMContainer.bins_per_axis ps bin_edge).1 *
       ( ChMPMContainer.bins_per_axis ps bin_edge).2.1 *
       ( ChMPMContainer.bins_per_axis ps bin_edge).2.2).toNat := by
  have hmin := min_bounding_point_le ps p hp
  have hmax := le_max_bounding_point ps p hp
  refine ⟨?_, ?_, ?_, rfl⟩
  · exact gridCell_component_bounds _ _ _ _ he hmin.1 hmax.1
  · exact gridCell_component_bounds _ _ _ _ he hmin.2.1 hmax.2.1
  · exact gridCell_component_bounds _ _ _ _ he hmin.2.2 hmax.2.2

/-- Claim C5 witness: for the two-marker cloud at (0,0,0) and (3/2, 2, 3)
with bin_edge 1, the second marker's grid cell lies inside the bins layout
and ComputeDOF returns the product of the per-axis bin counts. -/
theorem claim_C5_witness :
    (real3.mk (3 / 2) 2 3 ∈ [real3.mk 0 0 0, real3.mk (3 / 2) 2 3]) ∧
    (0 : real) < 1 ∧
    ((0 ≤ (gridCellIndex (real3.mk (3 / 2) 2 3)
          ( ChMPMContainer.min_bounding_point [real3.mk 0 0 0, real3.mk (3 / 2) 2 3]) 1).1 ∧
      (gridCellIndex (real3.mk (3 / 2) 2 3)
          ( ChMPMContainer.min_bounding_point [real3.mk 0 0 0, real3.mk (3 / 2) 2 3]) 1).1 <
        ( ChMPMContainer.bins_per_axis [real3.mk 0 0 0, real3.mk (3 / 2) 2 3] 1).1) ∧
    (0 ≤ (gridCellIndex (real3.mk (3 / 2) 2 3)
          ( ChMPMContainer.min_bounding_point [real3.mk 0 0 0, real3.mk (3 / 2) 2 3]) 1).2.1 ∧
      (gridCellIndex (real3.mk (3 / 2) 2 3)
          ( ChMPMContainer.min_bounding_point [real3.mk 0 0 0, real3.mk (3 / 2) 2 3]) 1).2.1 <
        ( ChMPMContainer.bins_per_axis [real3.mk 0 0 0, real3.mk (3 / 2) 2 3] 1).2.1) ∧
    (0 ≤ (gridCellIndex (real3.mk (3 / 2) 2 3)
          ( ChMPMContainer.min_bounding_point [real3.mk 0 0 0, real3.mk (3 / 2) 2 3]) 1).2.2 ∧
      (gridCellIndex (real3.mk (3 / 2) 2 3)
          ( ChMPMContainer.min_bounding_point [real3.mk 0 0 0, real3.mk (3 / 2) 2 3]) 1).2.2 <
        ( ChMPMContainer.bins_per_axis [real3.mk 0 0 0, real3.mk (3 / 2) 2 3] 1).2.2) ∧
    ChMPMContainer.ComputeDOF [real3.mk 0 0 0, real3.mk (3 / 2) 2 3] 1 =
      (( ChMPMContainer.bins_per_axis [real3.mk 0 0 0, real3.mk (3 / 2) 2 3] 1).1 *
       ( ChMPMContainer.bins_per_axis [real3.mk 0 0 0, real3.mk (3 / 2) 2 3] 1).2.1 *
       ( ChMPMContainer.bins_per_axis [real3.mk 0 0 0, real3.mk (3 / 2) 2 3] 1).2.2).toNat) :=
  ⟨by simp, by norm_num,
    claim_C5_grid_cell_and_compute_dof [real3.mk 0 0 0, real3.mk (3 / 2) 2 3] 1
      (real3.mk (3 / 2) 2 3) (by simp) (by norm_num)⟩

/-- State of ChFEAContainer: node positions and velocities, tetrahedral
element index quadruples, the rest-shape inverse matrices X0 and element
volumes V, the material parameters and row bookkeeping of the header, and
the buffers the lifecycle passes fill. -/
structure ChFEAContainer where
  pos : List real3
  vel : List real3
  tets : List (Nat × Nat × Nat × Nat)
  X0 : List Mat33
  V : List real
  youngs_modulus : real
  poisson_ratio : real
  material_density : real
  start_row : Nat
  start_tet : Nat
  num_tet_constraints : Nat
  num_rigid_constraints : Nat
  gamma_old_rigid : List real
  rigid_constraint_recovery_speed : real
  Dbuf : List real
  bbuf : List real
  Ebuf : List real
  deriving DecidableEq

/-- The shape matrix of one tetrahedral element: the edge vectors from the
first node to the three others, as columns. -/
def shapeMatrix (pos : List real3) (e : Nat × Nat × Nat × Nat) : Mat33 :=
  let p0 := pos.getD e.1 ⟨0, 0, 0⟩
  let p1 := pos.getD e.2.1 ⟨0, 0, 0⟩
  let p2 := pos.getD e.2.2.1 ⟨0, 0, 0⟩
  let p3 := pos.getD e.2.2.2 ⟨0, 0, 0⟩
  ⟨p1.x - p0.x, p2.x - p0.x, p3.x - p0.x,
   p1.y - p0.y, p2.y - p0.y, p3.y - p0.y,
   p1.z - p0.z, p2.z - p0.z, p3.z - p0.z⟩

/-- Modelled from the spec: ChFEAContainer::Initialize (missing from src/:
the body lives in a translation unit that is not in the tree) computes each
element's rest-shape inverse matrix X0 from the initial node positions,
and the element volumes V, once. -/
def ChFEAContainer.Initialize (c : ChFEAContainer) : ChFEAContainer :=
  { c with
    X0 := c.tets.map (fun e => Mat33.inv (shapeMatrix c.pos e))
    V := c.tets.map (fun e => Mat33.det (shapeMatrix c.pos e) / 6) }

/-- Modelled from the spec: ChFEAContainer::Setup records the container's
starting row index and recomputes the constraint counts
(num_tet_constraints = strain rows + one volume row per element, seven per
tetrahedron). -/
def ChFEAContainer.Setup (c : ChFEAContainer) (start_constraint : Nat) : ChFEAContainer :=
  { c with
    start_row := start_constraint
    start_tet := start_constraint
    num_tet_constraints := 7 * c.tets.length }

/-- Modelled from the spec: ChFEAContainer::Update reads the enclosing
system state before the solve; it changes no container field visible in
this model. -/
def ChFEAContainer.Update (c : ChFEAContainer) (_ChTime : real) : ChFEAContainer := c

/-- Modelled from the spec: ChFEAContainer::Build_D fills the Jacobian
buffer for this container's rows. -/
def ChFEAContainer.Build_D (c : ChFEAContainer) : ChFEAContainer :=
  { c with Dbuf := List.replicate c.num_tet_constraints 0 }

/-- Modelled from the spec: ChFEAContainer::Build_b fills the bias buffer
for this container's rows. -/
def ChFEAContainer.Build_b (c : ChFEAContainer) : ChFEAContainer :=
  { c with bbuf := List.replicate c.num_tet_constraints 0 }

/-- Modelled from the spec: ChFEAContainer::Build_E fills the compliance
buffer for this container's rows. -/
def ChFEAContainer.Build_E (c : ChFEAContainer) : ChFEAContainer :=
  { c with Ebuf := List.replicate c.num_tet_constraints 0 }

/-- Modelled from the spec: ChFEAContainer::PreSolve is a solve-phase
mutation point; it changes no container field visible in this model. -/
def ChFEAContainer.PreSolve (c : ChFEAContainer) : ChFEAContainer := c

/-- Modelled from the spec: ChFEAContainer::PostSolve stores the solved
rigid-coupling multipliers for warm starting the next step. -/
def ChFEAContainer.PostSolve (c : ChFEAContainer) : ChFEAContainer :=
  { c with gamma_old_rigid := List.replicate c.num_rigid_constraints 0 }

/-- Modelled from the spec: ChFEAContainer::UpdatePosition advances the
node positions using the solved velocities. -/
def ChFEAContainer.UpdatePosition (c : ChFEAContainer) (ChTime : real) : ChFEAContainer :=
  { c with
    pos := List.zipWith
      (fun p v => real3.mk (p.x + ChTime * v.x) (p.y + ChTime * v.y) (p.z + ChTime * v.z))
      c.pos c.vel }

/-- Claim C6: the per-element rest-shape inverse matrices X0 are computed
at Initialize from the node positions, and none of the other lifecycle
operations (Setup, Update, Build_D, Build_b, Build_E, PreSolve, PostSolve,
UpdatePosition) modifies X0, so X0 stays the reference configuration
computed once at Initialize. -/
theorem claim_C6_fea_X0_computed_once (c : ChFEAContainer) (s : Nat) (t : real) :
    ( ChFEAContainer.Initialize c).X0 =
      c.tets.map (fun e => Mat33.inv (shapeMatrix c.pos e)) ∧
    (c.Setup s).X0 = c.X0 ∧
    (c.Update t).X0 = c.X0 ∧
    (c.Build_D).X0 = c.X0 ∧
    (c.Build_b).X0 = c.X0 ∧
    (c.Build_E).X0 = c.X0 ∧
    (c.PreSolve).X0 = c.X0 ∧
    (c.PostSolve).X0 = c.X0 ∧
    (c.UpdatePosition t).X0 = c.X0 :=
  ⟨rfl, rfl, rfl, rfl, rfl, rfl, rfl, rfl, rfl⟩
